import Mathlib

/-!
# Verification of the news_fetcher article pipeline

A shallow embedding, in Lean 4, of the core article-acquisition pipeline of the
`news_fetcher` repository: the text normalizer and deduplicator
(`src/news_fetcher/utils.py`), the feed post-processing, article extraction,
ranking and summarization operations (`src/news_fetcher/tools.py`), and the
LLM ranking-response parser (`src/news_fetcher/llm_client.py`).

Modelling conventions:
* Python strings are Lean `String`s; byte strings are `List Nat` (each < 256).
* Python `dict` article records are a Lean structure `Article` whose fields are
  the keys the pipeline reads; a key holding `None` is an `none` of `Option`.
* External collaborators (HTTP, feedparser, trafilatura, readability,
  BeautifulSoup, dateutil's date parser, `html.unescape`, the LLM) are
  parameters of the embedded functions, as the spec requires them to be
  mockable; the repository's own code is transcribed, never parameterized.
* A Python statement that can raise an exception escaping the function under
  scrutiny is modelled with `Except String`, the error being the exception.
* Floating-point scores are modelled exactly in `ℚ`; the claims under scrutiny
  concern the additive structure of the score, not rounding.
-/

namespace NewsFetcher

/-! ## Character predicates

`isPyWs` models Python's `str.strip()` / regex `\s` whitespace on the ASCII
range (the only code points exercised in this development).  `isJsonWs` is the
whitespace accepted by `json.loads` between tokens (JSON RFC: space, tab,
newline, carriage return only).  `isCatC` models Unicode general category C for
the control ranges (Cc: U+0000–U+001F and U+007F–U+009F); the exotic Cf/Co/Cs
points never occur in this development.  `isWordChar` models regex `\w` on
ASCII. -/

def isPyWs (c : Char) : Bool :=
  c = ' ' || c = '\t' || c = '\n' || c = '\r' || c = '\x0b' || c = '\x0c'

def isJsonWs (c : Char) : Bool :=
  c = ' ' || c = '\t' || c = '\n' || c = '\r'

def isCatC (c : Char) : Bool :=
  c.toNat < 0x20 || (0x7f ≤ c.toNat && c.toNat ≤ 0x9f)

def isWordChar (c : Char) : Bool :=
  c.isAlphanum || c = '_'

/-! ## utils.py : `clean_text`

```python
def clean_text(text: str) -> str:
    if not text:
        return ""
    text = re.sub(r'\s+', ' ', text.strip())
    text = ''.join(char for char in text
                   if unicodedata.category(char)[0] != 'C' or char in '\n\r\t')
    text = html.unescape(text)
    return text
```

`html.unescape` (an external stdlib collaborator with a table of ~2000 named
character references) is taken as a parameter `unescape`; every concrete input
in this development is `&`-free, where `html.unescape` is the identity. -/

def pyStrip (l : List Char) : List Char :=
  ((l.dropWhile isPyWs).reverse.dropWhile isPyWs).reverse

/-- `re.sub(r'\s+', ' ', ·)`: replace each maximal whitespace run by one space.
The boolean argument records whether the previous character was whitespace. -/
def collapseWsAux : Bool → List Char → List Char
  | _, [] => []
  | prevWs, c :: rest =>
    if isPyWs c then
      if prevWs then collapseWsAux true rest
      else ' ' :: collapseWsAux true rest
    else c :: collapseWsAux false rest

def collapseWs (l : List Char) : List Char := collapseWsAux false l

def stripControl (l : List Char) : List Char :=
  l.filter (fun c => !isCatC c || c = '\n' || c = '\r' || c = '\t')

def clean_text (unescape : String → String) (text : String) : String :=
  if text = "" then ""
  else unescape ⟨stripControl (collapseWs (pyStrip text.toList))⟩

/-! ## utils.py : `normalize_url`

```python
def normalize_url(url: str) -> str:
    if not url:
        return ""
    if not url.startswith(('http://', 'https://')):
        url = 'https://' + url
    url = url.rstrip('/')
    return url
```
-/

def startsWithScheme (s : String) : Bool :=
  "http://".toList.isPrefixOf s.toList || "https://".toList.isPrefixOf s.toList

/-- `str.rstrip('/')`: remove every trailing `'/'`. -/
def rstripSlash (s : String) : String :=
  ⟨(s.toList.reverse.dropWhile (· = '/')).reverse⟩

def normalize_url (url : String) : String :=
  if url = "" then ""
  else
    let url := if startsWithScheme url then url else "https://" ++ url
    rstripSlash url

/-! ### Properties of `rstripSlash` -/

/-! ## `hashlib.md5(·.encode()).hexdigest()`

`deduplicate_articles` keys its `seen_titles` set by the lowercase hex MD5
digest of the UTF-8 bytes of the normalized title.  The MD5 algorithm
(RFC 1321) is transcribed below over `Nat` with explicit `% 2^32`. -/

/-- UTF-8 encoding of one code point (as in Python's `str.encode()`). -/
def utf8Char (n : Nat) : List Nat :=
  if n < 0x80 then [n]
  else if n < 0x800 then [0xc0 + n / 64, 0x80 + n % 64]
  else if n < 0x10000 then [0xe0 + n / 4096, 0x80 + (n / 64) % 64, 0x80 + n % 64]
  else [0xf0 + n / 262144, 0x80 + (n / 4096) % 64, 0x80 + (n / 64) % 64, 0x80 + n % 64]

def utf8Bytes (s : String) : List Nat :=
  (s.toList.map (fun c => utf8Char c.toNat)).flatten

/-- The 64 MD5 round constants `floor(2^32 * |sin(i+1)|)`. -/
def md5K : List Nat :=
  [0xd76aa478, 0xe8c7b756, 0x242070db, 0xc1bdceee,
   0xf57c0faf, 0x4787c62a, 0xa8304613, 0xfd469501,
   0x698098d8, 0x8b44f7af, 0xffff5bb1, 0x895cd7be,
   0x6b901122, 0xfd987193, 0xa679438e, 0x49b40821,
   0xf61e2562, 0xc040b340, 0x265e5a51, 0xe9b6c7aa,
   0xd62f105d, 0x02441453, 0xd8a1e681, 0xe7d3fbc8,
   0x21e1cde6, 0xc33707d6, 0xf4d50d87, 0x455a14ed,
   0xa9e3e905, 0xfcefa3f8, 0x676f02d9, 0x8d2a4c8a,
   0xfffa3942, 0x8771f681, 0x6d9d6122, 0xfde5380c,
   0xa4beea44, 0x4bdecfa9, 0xf6bb4b60, 0xbebfbc70,
   0x289b7ec6, 0xeaa127fa, 0xd4ef3085, 0x04881d05,
   0xd9d4d039, 0xe6db99e5, 0x1fa27cf8, 0xc4ac5665,
   0xf4292244, 0x432aff97, 0xab9423a7, 0xfc93a039,
   0x655b59c3, 0x8f0ccc92, 0xffeff47d, 0x85845dd1,
   0x6fa87e4f, 0xfe2ce6e0, 0xa3014314, 0x4e0811a1,
   0xf7537e82, 0xbd3af235, 0x2ad7d2bb, 0xeb86d391]

/-- The per-round left-rotation amounts. -/
def md5S : List Nat :=
  [7, 12, 17, 22, 7, 12, 17, 22, 7, 12, 17, 22, 7, 12, 17, 22,
   5, 9, 14, 20, 5, 9, 14, 20, 5, 9, 14, 20, 5, 9, 14, 20,
   4, 11, 16, 23, 4, 11, 16, 23, 4, 11, 16, 23, 4, 11, 16, 23,
   6, 10, 15, 21, 6, 10, 15, 21, 6, 10, 15, 21, 6, 10, 15, 21]

def rotl32 (x c : Nat) : Nat :=
  ((x <<< c) ||| (x >>> (32 - c))) % 4294967296

def not32 (x : Nat) : Nat := x ^^^ 0xffffffff

structure MD5St where
  a : Nat
  b : Nat
  c : Nat
  d : Nat

def md5Init : MD5St := ⟨0x67452301, 0xefcdab89, 0x98badcfe, 0x10325476⟩

/-- One of the 64 MD5 rounds: `m` gives the 16 little-endian message words of
the current block. -/
def md5Round (m : Nat → Nat) (st : MD5St) (i : Nat) : MD5St :=
  let fg : Nat × Nat :=
    if i < 16 then ((st.b &&& st.c) ||| (not32 st.b &&& st.d), i)
    else if i < 32 then ((st.d &&& st.b) ||| (not32 st.d &&& st.c), (5 * i + 1) % 16)
    else if i < 48 then (st.b ^^^ st.c ^^^ st.d, (3 * i + 5) % 16)
    else (st.c ^^^ (st.b ||| not32 st.d), (7 * i) % 16)
  let f := (fg.1 + st.a + md5K.getD i 0 + m fg.2) % 4294967296
  ⟨st.d, (st.b + rotl32 f (md5S.getD i 0)) % 4294967296, st.b, st.c⟩

/-- Word `g` of a 64-byte block, little-endian. -/
def blockWord (block : List Nat) (g : Nat) : Nat :=
  block.getD (4 * g) 0 + 256 * block.getD (4 * g + 1) 0 +
    65536 * block.getD (4 * g + 2) 0 + 16777216 * block.getD (4 * g + 3) 0

def md5Block (st : MD5St) (block : List Nat) : MD5St :=
  let r := (List.range 64).foldl (md5Round (blockWord block)) st
  ⟨(st.a + r.a) % 4294967296, (st.b + r.b) % 4294967296,
   (st.c + r.c) % 4294967296, (st.d + r.d) % 4294967296⟩

/-- MD5 padding: a `0x80` byte, zeros to 56 mod 64, then the bit length as
eight little-endian bytes. -/
def md5Pad (msg : List Nat) : List Nat :=
  let zeros := (120 - (msg.length + 1) % 64) % 64
  msg ++ [0x80] ++ List.replicate zeros 0 ++
    (List.range 8).map (fun j => ((8 * msg.length) >>> (8 * j)) % 256)

def chunks64 : Nat → List Nat → List (List Nat)
  | 0, _ => []
  | _ + 1, [] => []
  | fuel + 1, l => l.take 64 :: chunks64 fuel (l.drop 64)

def leBytes4 (x : Nat) : List Nat :=
  [x % 256, (x >>> 8) % 256, (x >>> 16) % 256, (x >>> 24) % 256]

def md5Bytes (msg : List Nat) : List Nat :=
  let padded := md5Pad msg
  let h := (chunks64 padded.length padded).foldl md5Block md5Init
  leBytes4 h.a ++ leBytes4 h.b ++ leBytes4 h.c ++ leBytes4 h.d

/-- The lowercase hex digit for `n < 16`: `0`–`9` then `a`–`f`. -/
def hexDigit (n : Nat) : Char :=
  if n < 10 then Char.ofNat (48 + n) else Char.ofNat (87 + n)

def bytesToHex (bs : List Nat) : List Char :=
  bs.foldr (fun b acc => hexDigit (b / 16) :: hexDigit (b % 16) :: acc) []

/-- `hashlib.md5(s.encode()).hexdigest()`. -/
def md5Hex (s : String) : String :=
  ⟨bytesToHex (md5Bytes (utf8Bytes s))⟩

/-! ## The article record

The pipeline passes articles as Python dicts; the fields below are the keys the
functions under scrutiny read.  `published` is `none` when the key is absent or
holds `None` (in the `search_feeds` pipeline the key is always *present* —
set at construction and round-tripped through the JSON cache as `null` — so
there `none` models the value `None`).  `word_count` is `none` when the key is
absent, making `item.get('word_count', ...)` fall back to its default. -/

structure Article where
  title : String := ""
  url : String := ""
  summary : String := ""
  published : Option String := none
  word_count : Option Nat := none
  deriving Repr, DecidableEq, Inhabited

/-- Python `str.lower()`; the repository only lower-cases before substring and
equality tests, and every concrete input here is ASCII, where `Char.toLower`
agrees with Python. -/
def pyLower (s : String) : String := ⟨s.toList.map Char.toLower⟩

/-- Python `needle in hay` substring containment. -/
def listContains (n : List Char) : List Char → Bool
  | [] => n.isEmpty
  | c :: rest => n.isPrefixOf (c :: rest) || listContains n rest

def strIn (needle hay : String) : Bool := listContains needle.toList hay.toList

/-- Python `len(s.split())`: the number of maximal non-whitespace runs. -/
def countWordsAux : Bool → List Char → Nat
  | _, [] => 0
  | inWord, c :: rest =>
    if isPyWs c then countWordsAux false rest
    else (if inWord then 0 else 1) + countWordsAux true rest

def pyWordCount (s : String) : Nat := countWordsAux false s.toList

/-! ## utils.py : `deduplicate_articles`

```python
def deduplicate_articles(articles):
    if not articles:
        return articles
    seen_urls = set(); seen_titles = set(); deduped = []
    for article in articles:
        url = article.get('url', ''); title = article.get('title', '')
        normalized_url = normalize_url(url)
        normalized_title = clean_text(title).lower()
        if normalized_url and normalized_url in seen_urls: continue
        title_hash = hashlib.md5(normalized_title.encode()).hexdigest()
        if title_hash in seen_titles: continue
        is_similar = False
        for existing_title in seen_titles:
            if len(normalized_title) > 20 and len(existing_title) > 20:
                if normalized_title[:50] == existing_title[:50]:
                    is_similar = True; break
        if is_similar: continue
        if normalized_url: seen_urls.add(normalized_url)
        if normalized_title: seen_titles.add(title_hash)
        deduped.append(article)
    return deduped
```

The Python sets `seen_urls` / `seen_titles` are modelled as lists (membership
is all the code queries; the `is_similar` loop computes an existential over the
set, which is independent of iteration order).  Note that `seen_titles` holds
MD5 *hex digests*, and that the `is_similar` loop therefore compares the first
50 characters of a normalized title against the first 50 characters of a
32-character hex digest.  The three `continue`s are merged into one
disjunction; the loop body has no side effect before the first `continue`. -/

def isSimilar (normalizedTitle : String) (seenTitles : List String) : Bool :=
  seenTitles.any (fun existingTitle =>
    decide (20 < normalizedTitle.length) && decide (20 < existingTitle.length) &&
    normalizedTitle.toList.take 50 == existingTitle.toList.take 50)

def dedupAux (unescape : String → String) :
    List Article → List String → List String → List Article
  | [], _, _ => []
  | article :: rest, seenUrls, seenTitles =>
    let nu := normalize_url article.url
    let nt := pyLower (clean_text unescape article.title)
    let th := md5Hex nt
    if (nu ≠ "" ∧ nu ∈ seenUrls) ∨ th ∈ seenTitles ∨ isSimilar nt seenTitles then
      dedupAux unescape rest seenUrls seenTitles
    else
      article :: dedupAux unescape rest
        (if nu ≠ "" then nu :: seenUrls else seenUrls)
        (if nt ≠ "" then th :: seenTitles else seenTitles)

def deduplicate_articles (unescape : String → String) (articles : List Article) :
    List Article :=
  dedupAux unescape articles [] []

/-! ## tools.py : `search_feeds` post-processing (lines 160–177)

```python
    articles = deduplicate_articles(articles)
    articles.sort(key=lambda x: x.get('published', ''), reverse=True)
    articles = articles[:limit]
    return {"success": True, "articles": articles, ...}
```

Every article reaching this point carries a `'published'` key (possibly
`None`), so the sort key is `None` for undated entries, never the `''`
default.  CPython's `list.sort` compares keys with `<`; with at least two
elements it compares every element at least once during run detection /
binary insertion, and any comparison involving `None` and a `str` (or two
`None`s) raises `TypeError`.  The sort is outside the per-feed
`try`/`except`, so the exception escapes `search_feeds`; the `Except.error`
branch models that escaping exception.  When all keys are strings the sort is
a stable descending sort on the key (CPython's sort is stable and
`reverse=True` does not reorder equal keys). -/

def pySortByPublished (l : List Article) : Except String (List Article) :=
  if 2 ≤ l.length ∧ l.any (fun a => a.published.isNone) then
    .error "TypeError: '<' not supported between instances of 'NoneType' and 'str'"
  else
    .ok (l.mergeSort (fun x y => decide (y.published.getD "" ≤ x.published.getD "")))

structure SearchResult where
  success : Bool
  articles : List Article := []
  error : Option String := none
  deriving Repr, DecidableEq

/-- The post-processing tail of `search_feeds` producing its result object
(the metadata fields `total_found`, `sources_used`, `topic`, `timestamp` are
not modelled; no claim mentions them).  An `Except.error` is an uncaught
Python exception escaping the operation. -/
def search_feeds_post (unescape : String → String) (articles : List Article)
    (limit : Nat) : Except String SearchResult :=
  match pySortByPublished (deduplicate_articles unescape articles) with
  | .error e => .error e
  | .ok sorted => .ok { success := true, articles := sorted.take limit }

/-- The deduplicate–sort–truncate pipeline alone (the article list of a
successful return). -/
def searchFeedsArticles (unescape : String → String) (articles : List Article)
    (limit : Nat) : Except String (List Article) :=
  match pySortByPublished (deduplicate_articles unescape articles) with
  | .error e => .error e
  | .ok sorted => .ok (sorted.take limit)

/-! ## tools.py : `fetch_article` (lines 214–337, the cache-miss path)

External collaborators are an environment: the HTTP fetch (`requests.get` +
`raise_for_status`), the trafilatura extraction (returning `None` or a JSON
string, then `json.loads`), and the readability/BeautifulSoup fallback (its
`Document` calls and `<meta>` scans; an exception raised there is caught by
the enclosing `try` of `fetch_article`).  The `domain` field
(`extract_domain`, a `urlparse` wrapper) is not modelled; no claim mentions
it. -/

structure TrafJson where
  text : String := ""
  title : String := ""
  author : String := ""
  date : String := ""
  description : String := ""
  language : String := ""
  deriving Repr, DecidableEq, Inhabited

structure ReadabilityRes where
  docTitle : String := ""
  titleTag : Option String := none
  metaAuthor : Option String := none
  metaPublished : Option String := none
  metaDescription : Option String := none
  text : String := ""
  deriving Repr, DecidableEq, Inhabited

structure FetchEnv where
  http : Except String String
  trafilatura : Option (Option TrafJson) := none
  readability : Except String ReadabilityRes := .ok {}
  deriving Repr, Inhabited

structure FetchResult where
  success : Bool
  error : Option String := none
  title : String := ""
  text : String := ""
  author : String := ""
  published : String := ""
  description : String := ""
  url : String := ""
  language : String := ""
  word_count : Nat := 0
  extraction_method : String := ""
  deriving Repr, DecidableEq

def fetch_article (unescape : String → String) (url : String) (env : FetchEnv) :
    FetchResult :=
  let url := normalize_url url
  match env.http with
  | .error e => { success := false, error := some ("Error fetching article: " ++ e), url := url }
  | .ok _html =>
    -- Trafilatura stage with the 200-character sufficiency gate
    let articleData : Option FetchResult :=
      match env.trafilatura with
      | some (some contentJson) =>
        if 200 < contentJson.text.length then
          some { success := true,
                 title := contentJson.title, text := contentJson.text,
                 author := contentJson.author, published := contentJson.date,
                 description := contentJson.description, url := url,
                 language := contentJson.language,
                 word_count := pyWordCount contentJson.text,
                 extraction_method := "trafilatura" }
        else none
      | _ => none
    match articleData with
    | some a => { a with success := true, error := none }
    | none =>
      -- Readability fallback: the block assigns `article_data` unconditionally
      match env.readability with
      | .error e =>
        { success := false, error := some ("Error fetching article: " ++ e), url := url }
      | .ok r =>
        let title := if r.docTitle = "" then r.titleTag.getD "" else r.docTitle
        let articleData : Option FetchResult :=
          some { success := true,
                 title := clean_text unescape title,
                 text := clean_text unescape r.text,
                 author := clean_text unescape (r.metaAuthor.getD ""),
                 published := r.metaPublished.getD "",
                 description := clean_text unescape (r.metaDescription.getD ""),
                 url := url, language := "",
                 word_count := pyWordCount r.text,
                 extraction_method := "readability" }
        match articleData with
        | some a => { a with success := true, error := none }
        | none =>
          { success := false,
            error := some "Failed to extract meaningful content from the article",
            url := url }

/-! ## tools.py : `rank_articles` heuristic score (lines 362–417)

The dateutil parse combined with the `datetime.now()` subtraction is the
oracle `ageDays : String → Option ℤ` (`none` models the silent
`except: pass`); floats are modelled exactly in `ℚ`. -/

structure Prefs where
  keywords_boost : List String := []
  keywords_filter : List String := []
  deriving Repr

def heuristicScore (prefs : Prefs) (ageDays : String → Option ℤ) (topic : String)
    (item : Article) : ℚ :=
  let score : ℚ := 0
  -- `if item.get('published'): try: ... except: pass`
  let score := score +
    (match item.published with
     | some s =>
       if s ≠ "" then
         match ageDays s with
         | some daysOld => max 0 (10 * (9/10 : ℚ) ^ daysOld)
         | none => 0
       else 0
     | none => 0)
  let score := score + 2        -- domain_bonus = 2.0, unconditional
  let title := pyLower item.title
  let summary := pyLower item.summary
  let topicLower := pyLower topic
  let score := if strIn topicLower title then score + 15 else score
  let score := if strIn topicLower summary then score + 10 else score
  let score := prefs.keywords_boost.foldl (fun s keyword =>
    let kl := pyLower keyword
    let s := if strIn kl title then s + 8 else s
    if strIn kl summary then s + 5 else s) score
  let score := prefs.keywords_filter.foldl (fun s keyword =>
    let kl := pyLower keyword
    let s := if strIn kl title then s - 20 else s
    if strIn kl summary then s - 10 else s) score
  let wordCount := item.word_count.getD (pyWordCount item.summary)
  if 200 < wordCount then score + 3
  else if 100 < wordCount then score + 1
  else score

/-! The claim's decomposition of the same score, term by term. -/

def specRecency (ageDays : String → Option ℤ) (item : Article) : ℚ :=
  match item.published with
  | some s =>
    if s ≠ "" then
      match ageDays s with
      | some daysOld => max 0 (10 * (9/10 : ℚ) ^ daysOld)
      | none => 0
    else 0
  | none => 0

def specTopic (topic title summary : String) : ℚ :=
  (if strIn (pyLower topic) (pyLower title) then 15 else 0) +
  (if strIn (pyLower topic) (pyLower summary) then 10 else 0)

def specBoost (prefs : Prefs) (title summary : String) : ℚ :=
  (prefs.keywords_boost.map (fun k =>
    (if strIn (pyLower k) (pyLower title) then (8 : ℚ) else 0) +
    (if strIn (pyLower k) (pyLower summary) then (5 : ℚ) else 0))).sum

def specFilter (prefs : Prefs) (title summary : String) : ℚ :=
  (prefs.keywords_filter.map (fun k =>
    (if strIn (pyLower k) (pyLower title) then (-20 : ℚ) else 0) +
    (if strIn (pyLower k) (pyLower summary) then (-10 : ℚ) else 0))).sum

def specLength (wordCount : Nat) : ℚ :=
  if 200 < wordCount then 3 else if 100 < wordCount then 1 else 0

/-! ## llm_client.py : `_parse_ranking_response` (lines 224–254) and the
refinement stage of `rank_articles` (tools.py lines 422–437)

The regex `\[[\d,\s]+\]` has no `']'` inside the bracketed character class,
so its leftmost match is: a `'['`, a maximal non-empty run of
digits/commas/whitespace, then `']'` immediately after the run.  `json.loads`
of the match is a recursive-descent integer-array parse (JSON whitespace is
only space/tab/newline/CR, leading zeros are rejected); a `json.JSONDecodeError`
is caught by the enclosing `except` and yields `None`.  The fallback
`re.findall(r'\b\d+\b', ...)` collects maximal digit runs flanked by
non-word characters.  ASCII is assumed for `\d`, `\s`, `\w` (the only inputs
exercised here). -/

def digitsVal (l : List Char) : Nat :=
  l.foldl (fun n c => 10 * n + (c.toNat - 48)) 0

def isRankClassChar (c : Char) : Bool := c.isDigit || c = ',' || isPyWs c

def findJsonRun : List Char → Option (List Char)
  | [] => none
  | '[' :: rest =>
    let run := rest.takeWhile isRankClassChar
    if run ≠ [] ∧ (rest.drop run.length).head? = some ']' then some run
    else findJsonRun rest
  | _ :: rest => findJsonRun rest

def skipJsonWs (l : List Char) : List Char := l.dropWhile isJsonWs

/-- One JSON unsigned integer token (no leading zeros), returning the value
and the rest. -/
def parseJsonNum (l : List Char) : Option (Nat × List Char) :=
  let digits := l.takeWhile Char.isDigit
  if digits = [] then none
  else if 1 < digits.length ∧ digits.head? = some '0' then none
  else some (digitsVal digits, l.dropWhile Char.isDigit)

def parseJsonTail : Nat → List Char → Option (List Nat)
  | 0, _ => none
  | fuel + 1, l =>
    match skipJsonWs l with
    | [] => some []
    | ',' :: r =>
      match parseJsonNum (skipJsonWs r) with
      | some (n, rest) => (parseJsonTail fuel rest).map (n :: ·)
      | none => none
    | _ => none

/-- `json.loads("[" + content + "]")` for `content` drawn from the regex
character class `[\d,\s]`. -/
def parseJsonIntArray (content : List Char) : Option (List Nat) :=
  match skipJsonWs content with
  | [] => some []
  | l =>
    match parseJsonNum l with
    | some (n, rest) => (parseJsonTail (content.length + 1) rest).map (n :: ·)
    | none => none

/-- `re.findall(r'\b\d+\b', s)` mapped through `int`: values of the maximal
digit runs whose neighbours are not word characters. -/
def findNumsAux (prev : Option Char) : List Char → List Nat
  | [] => []
  | c :: rest =>
    if c.isDigit then
      let digits := c :: rest.takeWhile Char.isDigit
      let rest2 := rest.dropWhile Char.isDigit
      let okLeft := match prev with | none => true | some p => !isWordChar p
      let okRight := match rest2.head? with | none => true | some q => !isWordChar q
      (if okLeft && okRight then [digitsVal digits] else []) ++
        findNumsAux (some (digits.getLastD c)) rest2
    else findNumsAux (some c) rest
  termination_by l => l.length
  decreasing_by
  · have h : (List.dropWhile Char.isDigit rest).length ≤ rest.length :=
      (List.dropWhile_sublist _).length_le
    simpa [Nat.lt_succ_iff] using h
  · simp

def parse_ranking_response (response : String) : Option (List Nat) :=
  match findJsonRun response.toList with
  | some run =>
    match parseJsonIntArray run with
    | some indices =>
      -- the validity filter (`isinstance(idx, int) and idx >= 0`) accepts
      -- every element: the character class admits only unsigned integers
      some (indices.take 5)
    | none => none
  | none =>
    let nums := findNumsAux none response.toList
    if nums ≠ [] then some (nums.take 5) else none

/-- `LLMClient.rank_articles` given the raw LLM response (`none` models
"LLM unavailable, the HTTP call failed, or an exception was caught"). -/
def llm_rank_articles (articles : List Article) (response : Option String) :
    Option (List Article) :=
  match response with
  | none => none
  | some r =>
    match parse_ranking_response r with
    | none => none
    | some indices =>
      if indices = [] then none
      else some ((indices.filter (· < articles.length)).map
        (fun i => articles.getD i default))

/-- The refinement stage of `rank_articles`: `scored` is the
heuristically-sorted article list; the LLM reranks its top 15.

```python
    top_candidates = [item for item, score in scored_items[:15]]
    try:
        ...
        reranked = llm_client.rank_articles(top_candidates, topic)
        if reranked:
            return reranked[:5]
    except Exception as e:
        ...
    return top_candidates[:5]
``` -/
def rank_articles_select (scored : List Article) (response : Option String) :
    List Article :=
  let topCandidates := scored.take 15
  match llm_rank_articles topCandidates response with
  | some reranked => if reranked = [] then topCandidates.take 5 else reranked.take 5
  | none => topCandidates.take 5

/-! ## The cache read (tools.py lines 198–212 and 76–92)

```python
    if cache_path.exists():
        try:
            with open(cache_path, 'r') as f:
                cached_data = json.load(f)
                cache_time = datetime.fromisoformat(cached_data['timestamp'])
                if datetime.now() - cache_time < timedelta(seconds=config.cache_ttl):
                    return cached_data          # (fetch_article; search_feeds uses the articles)
        except (json.JSONDecodeError, KeyError, ValueError):
            pass
```

`CacheFile` enumerates the possible states of the cache file by the first
failure the read hits.  Crucially, the `except` tuple catches only
`json.JSONDecodeError`, `KeyError` and `ValueError`; a `TypeError` is *not*
caught.  So: `absent` (no file — skip, miss); `invalidJson` (`json.load`
raises `JSONDecodeError` — caught, miss); `arrayJson` (valid JSON that is
not a dict, e.g. a JSON array: `cached_data['timestamp']` raises
`TypeError: list indices must be integers or slices, not str` — uncaught;
other non-dict shapes such as `null` or a string raise analogous
`TypeError`s); `missingTimestamp` (a dict without the key — `KeyError`,
caught, miss); `nonStringTimestamp` (e.g. `{"timestamp": 5}`:
`datetime.fromisoformat` raises `TypeError: fromisoformat: argument must be
str` — uncaught); `badTimestamp` (a string the ISO parser rejects —
`ValueError`, caught, miss); `entry` (well-formed timestamp and payload).

`cache_get` returns `.ok none` for a miss (the caller refetches),
`.ok (some p)` for a hit, and `.error e` for an exception escaping the
`except` clause.  In `fetch_article` the cache read sits *before* the
enclosing `try` (tools.py 202–212 vs 214), so that exception propagates to
the caller; in `search_feeds` the per-feed `except Exception` records it and
skips the feed — neither outcome is a refetch.  Timestamps are seconds as
integers; `config.cache_ttl = 3600` (config.py line 54). -/

def cache_ttl : ℤ := 3600

inductive CacheFile (π : Type) where
  | absent : CacheFile π
  | invalidJson : CacheFile π
  | arrayJson : CacheFile π
  | missingTimestamp : CacheFile π
  | nonStringTimestamp : CacheFile π
  | badTimestamp : CacheFile π
  | entry (timestamp : ℤ) (payload : π) : CacheFile π

def cache_get {π : Type} (now ttl : ℤ) (file : CacheFile π) :
    Except String (Option π) :=
  match file with
  | .absent => .ok none
  | .invalidJson => .ok none      -- json.JSONDecodeError is in the except tuple
  | .arrayJson =>
    .error "TypeError: list indices must be integers or slices, not str"
  | .missingTimestamp => .ok none -- KeyError is in the except tuple
  | .nonStringTimestamp => .error "TypeError: fromisoformat: argument must be str"
  | .badTimestamp => .ok none     -- ValueError is in the except tuple
  | .entry ts payload => if now - ts < ttl then .ok (some payload) else .ok none

/-! ## tools.py : `summarize_collection` heuristic date range (lines 510–538)

```python
    for article in collection[:10]:
        ...
        if article.get('published'):
            try:
                pub_date = date_parser.parse(article['published'])
                dates.append(pub_date.strftime("%B %d, %Y"))
            except:
                pass
    ...
    if dates:
        unique_dates = list(set(dates))
        if unique_dates:
            summary_text += f"\n\nCoverage from: {unique_dates[0]}"
            if len(unique_dates) > 1:
                summary_text += f" to {unique_dates[-1]}"
```

`fmt` is the oracle for `date_parser.parse(·).strftime("%B %d, %Y")`
(`none` = the silent `except`).  `list(set(dates))` enumerates the distinct
date strings in CPython's *unspecified hash-dependent set order*; it is
modelled as an arbitrary duplicate-free permutation `order` of the distinct
dates, supplied as a parameter. -/

def collectDates (fmt : String → Option String) (collection : List Article) :
    List String :=
  (collection.take 10).filterMap (fun a =>
    match a.published with
    | some s => if s ≠ "" then fmt s else none
    | none => none)

/-- The "Coverage from" fragment appended to the summary, given
`unique_dates = list(set(dates))` as `order`; `none` when no dates were
collected (the fragment is omitted). -/
def dateRangeLine (order : List String) : Option String :=
  match order with
  | [] => none
  | d :: rest =>
    some ("Coverage from: " ++ d ++
      (if rest ≠ [] then " to " ++ ((d :: rest).getLast?.getD d) else ""))

theorem dropWhile_dropWhile (p : α → Bool) (l : List α) :
    (l.dropWhile p).dropWhile p = l.dropWhile p := by
  induction l with
  | nil => rfl
  | cons a l ih =>
    by_cases h : p a
    · simp [List.dropWhile_cons, h, ih]
    · simp [List.dropWhile_cons, h]

theorem rstripSlash_idem (s : String) : rstripSlash (rstripSlash s) = rstripSlash s := by
  unfold rstripSlash
  simp [dropWhile_dropWhile]

theorem ne_empty_of_startsWithScheme (s : String)
    (h : startsWithScheme s = true) : s ≠ "" := by
  intro hcontra
  subst hcontra
  exact absurd h (by decide)

/-! ### Fold lemmas for the keyword loops of the heuristic scorer -/

theorem foldl_two_ifs (p q : α → Bool) (x y : ℚ) (l : List α) (init : ℚ) :
    l.foldl (fun s k =>
      if q k then (if p k then s + x else s) + y else (if p k then s + x else s)) init
      = init + (l.map (fun k => (if p k then x else 0) + (if q k then y else 0))).sum := by
  induction l generalizing init with
  | nil => simp
  | cons a l ih =>
    simp only [List.foldl_cons, List.map_cons, List.sum_cons, ih]
    by_cases hp : p a <;> by_cases hq : q a <;> simp [hp, hq] <;> ring

theorem foldl_two_ifs_sub (p q : α → Bool) (x y : ℚ) (l : List α) (init : ℚ) :
    l.foldl (fun s k =>
      if q k then (if p k then s - x else s) - y else (if p k then s - x else s)) init
      = init + (l.map (fun k => (if p k then -x else 0) + (if q k then -y else 0))).sum := by
  induction l generalizing init with
  | nil => simp
  | cons a l ih =>
    simp only [List.foldl_cons, List.map_cons, List.sum_cons, ih]
    by_cases hp : p a <;> by_cases hq : q a <;> simp [hp, hq] <;> ring

/-- Any output of `normalize_url` on a non-empty input is `rstripSlash` of
something, hence has no trailing slash and is a fixed point of `rstripSlash`. -/
theorem normalize_url_eq_rstrip (u : String) (h : u ≠ "") :
    normalize_url u =
      rstripSlash (if startsWithScheme u then u else "https://" ++ u) := by
  unfold normalize_url
  simp [h]

/-- Claim C5: for every article and topic, the heuristic score computed by
`rank_articles` equals the sum of: the recency term `10 * 0.9^(age in days)`
floored at 0 when the published date parses (0 when absent or unparseable),
an unconditional `+2.0`, `+15.0` if the topic appears case-insensitively in
the title and `+10.0` if in the summary, `+8.0` per configured boost keyword
in the title and `+5.0` per boost keyword in the summary, `-20.0` per
configured filter keyword in the title and `-10.0` per filter keyword in the
summary, and `+3.0` if word count > 200 or `+1.0` if word count is in
(100, 200], with no clamping of the total. -/
theorem claim5_heuristic_score_decomposition (prefs : Prefs)
    (ageDays : String → Option ℤ) (topic : String) (item : Article) :
    heuristicScore prefs ageDays topic item =
      specRecency ageDays item + 2 + specTopic topic item.title item.summary +
      specBoost prefs item.title item.summary +
      specFilter prefs item.title item.summary +
      specLength (item.word_count.getD (pyWordCount item.summary)) := by
  unfold heuristicScore specRecency specTopic specBoost specFilter specLength
  dsimp only
  rw [foldl_two_ifs, foldl_two_ifs_sub]
  by_cases h1 : strIn (pyLower topic) (pyLower item.title) <;>
    by_cases h2 : strIn (pyLower topic) (pyLower item.summary) <;>
    by_cases h3 : 200 < item.word_count.getD (pyWordCount item.summary) <;>
    by_cases h4 : 100 < item.word_count.getD (pyWordCount item.summary) <;>
    simp [h1, h2, h3, h4] <;> ring

/-- Claim C6, counterexample: `normalize_url` is not idempotent on every
non-empty string.  On `"/"` it prepends the scheme and then strips *all*
trailing slashes, yielding `"https:"`, which no longer starts with a scheme;
a second application prepends again, giving `"https://https:"`. -/
theorem claim6_normalize_url_not_idempotent :
    ("/" : String) ≠ "" ∧ normalize_url (normalize_url "/") ≠ normalize_url "/" := by
  constructor
  · decide
  · show ("https://https:" : String) ≠ "https:"
    decide

/-- Claim C6, amended: `normalize_url` is idempotent on every non-empty input
whose normalization still starts with `http://` or `https://` — that is, on
everything except a bare scheme followed only by slashes (or a string of
slashes alone). -/
theorem claim6_normalize_url_idem_on_scheme (u : String) (h1 : u ≠ "")
    (h2 : startsWithScheme (normalize_url u) = true) :
    normalize_url (normalize_url u) = normalize_url u := by
  have hv : normalize_url u ≠ "" := ne_empty_of_startsWithScheme _ h2
  have e1 := normalize_url_eq_rstrip u h1
  have e2 := normalize_url_eq_rstrip (normalize_url u) hv
  rw [e2, if_pos h2]
  conv_lhs => rw [e1]
  rw [rstripSlash_idem, ← e1]

/-- Witness for C6: a concrete URL satisfying the amended hypotheses. -/
theorem claim6_witness :
    ("https://example.com/" : String) ≠ "" ∧
    startsWithScheme (normalize_url "https://example.com/") = true ∧
    normalize_url (normalize_url "https://example.com/") = normalize_url "https://example.com/" :=
  ⟨by decide, by decide,
    claim6_normalize_url_idem_on_scheme "https://example.com/" (by decide) (by decide)⟩

/-- Claim C8 (code bug): a payload that fails to parse as the expected
structure is *not* always treated as a miss.  Valid JSON of the wrong shape
(e.g. a JSON array) or a dict whose timestamp is not a string raises
`TypeError`, which the `except (json.JSONDecodeError, KeyError, ValueError)`
clause does not catch — the read errors instead of refetching (the exception
escapes `fetch_article`; in `search_feeds` it makes the per-feed handler skip
the feed).  The cases the claim does describe behave as claimed: absent
file, invalid JSON, missing key, unparseable timestamp string and a stale
entry miss, and a within-TTL read returns the stored payload. -/
theorem claim8_malformed_payload_raises_type_error :
    cache_get 1000 cache_ttl (CacheFile.arrayJson : CacheFile ℕ) =
      .error "TypeError: list indices must be integers or slices, not str" ∧
    cache_get 1000 cache_ttl (CacheFile.nonStringTimestamp : CacheFile ℕ) =
      .error "TypeError: fromisoformat: argument must be str" ∧
    cache_get 1000 cache_ttl (CacheFile.absent : CacheFile ℕ) = .ok none ∧
    cache_get 1000 cache_ttl (CacheFile.invalidJson : CacheFile ℕ) = .ok none ∧
    cache_get 1000 cache_ttl (CacheFile.missingTimestamp : CacheFile ℕ) = .ok none ∧
    cache_get 1000 cache_ttl (CacheFile.badTimestamp : CacheFile ℕ) = .ok none ∧
    cache_get 1000 cache_ttl (CacheFile.entry 500 (7 : ℕ)) = .ok (some 7) ∧
    cache_get 5000 cache_ttl (CacheFile.entry 500 (7 : ℕ)) = .ok none := by
  refine ⟨rfl, rfl, rfl, rfl, rfl, rfl, rfl, rfl⟩

/-! ### Structure lemmas for `deduplicate_articles` -/

theorem dedupAux_sublist (unescape : String → String) :
    ∀ (l : List Article) (su st : List String), (dedupAux unescape l su st).Sublist l := by
  intro l
  induction l with
  | nil => intro su st; simp [dedupAux]
  | cons a rest ih =>
    intro su st
    simp only [dedupAux]
    split
    · exact (ih _ _).cons a
    · exact (ih _ _).cons₂ a

/-- Every article surviving `dedupAux` with a non-empty normalized URL has a
URL outside the incoming `seenUrls` accumulator. -/
theorem dedupAux_url_fresh (unescape : String → String) :
    ∀ (l : List Article) (su st : List String) (a : Article),
      a ∈ dedupAux unescape l su st → normalize_url a.url ≠ "" →
      normalize_url a.url ∉ su := by
  intro l
  induction l with
  | nil => intro su st a ha; simp [dedupAux] at ha
  | cons b rest ih =>
    intro su st a ha hne
    simp only [dedupAux] at ha
    split at ha
    · exact ih _ _ _ ha hne
    · rename_i hcond
      rcases List.mem_cons.mp ha with rfl | hmem
      · intro hin
        exact hcond (Or.inl ⟨hne, hin⟩)
      · intro hin
        refine ih _ _ _ hmem hne ?_
        split
        · exact List.mem_cons_of_mem _ hin
        · exact hin

/-- No two survivors of `dedupAux` share the same non-empty normalized URL. -/
theorem dedupAux_pairwise_urls (unescape : String → String) :
    ∀ (l : List Article) (su st : List String),
      (dedupAux unescape l su st).Pairwise
        (fun a b => normalize_url a.url = "" ∨ normalize_url a.url ≠ normalize_url b.url) := by
  intro l
  induction l with
  | nil => intro su st; simp [dedupAux]
  | cons b rest ih =>
    intro su st
    simp only [dedupAux]
    split
    · exact ih _ _
    · refine List.Pairwise.cons ?_ (ih _ _)
      intro a ha
      by_cases hb : normalize_url b.url = ""
      · exact Or.inl hb
      · refine Or.inr fun heq => ?_
        have hane : normalize_url a.url ≠ "" := by rw [← heq]; exact hb
        have hfresh := dedupAux_url_fresh unescape rest _ _ a ha hane
        rw [if_pos hb] at hfresh
        exact hfresh (by rw [← heq]; exact List.mem_cons_self _ _)

/-- Claim C10, amended: the output of `deduplicate_articles` is a subsequence
of the input (surviving articles keep their input order), and no two
survivors share the same non-empty normalized URL.  (The survivor of a URL
group need not be its *first* occurrence: an earlier occurrence may itself
have been suppressed by the title rules without registering its URL — see the
counterexample.) -/
theorem claim10_dedup_sublist_unique_urls (unescape : String → String)
    (articles : List Article) :
    (deduplicate_articles unescape articles).Sublist articles ∧
    (deduplicate_articles unescape articles).Pairwise
      (fun a b => normalize_url a.url = "" ∨ normalize_url a.url ≠ normalize_url b.url) :=
  ⟨dedupAux_sublist unescape articles [] [],
   dedupAux_pairwise_urls unescape articles [] []⟩

set_option maxRecDepth 100000 in
/-- Claim C10, counterexample: three articles where the second and third share
the non-empty normalized URL `https://u2.com`.  The second is suppressed by
the title-hash rule (its title equals the first's) *before* its URL is
registered, so the survivor of that URL group is the *third* article, not the
first occurrence. -/
theorem claim10_first_url_occurrence_not_kept :
    deduplicate_articles id
      [{ url := "https://u1.com", title := "Hello" },
       { url := "https://u2.com", title := "Hello" },
       { url := "https://u2.com", title := "" }] =
      [{ url := "https://u1.com", title := "Hello" },
       { url := "https://u2.com", title := "" }] ∧
    normalize_url ("https://u2.com" : String) ≠ "" ∧
    ({ url := "https://u2.com", title := "Hello" } : Article) ≠
      { url := "https://u2.com", title := "" } := by
  refine ⟨by rfl, by decide, by decide⟩

set_option maxRecDepth 100000 in
/-- Claim C1 (code bug): the two example titles are both longer than 20
characters after normalization and agree on their first 50 characters, yet
*both* survive `deduplicate_articles`: the `seen_titles` set holds MD5 hex
digests, so the similar-title loop compares a title prefix against a
32-character digest and can never fire. -/
theorem claim1_near_duplicate_titles_both_survive :
    20 < (pyLower (clean_text id "Breaking News About The Economy And Markets Today Extra")).length ∧
    20 < (pyLower (clean_text id "Breaking News About The Economy And Markets Today Other")).length ∧
    (pyLower (clean_text id "Breaking News About The Economy And Markets Today Extra")).toList.take 50 =
      (pyLower (clean_text id "Breaking News About The Economy And Markets Today Other")).toList.take 50 ∧
    deduplicate_articles id
      [{ title := "Breaking News About The Economy And Markets Today Extra" },
       { title := "Breaking News About The Economy And Markets Today Other" }] =
      [{ title := "Breaking News About The Economy And Markets Today Extra" },
       { title := "Breaking News About The Economy And Markets Today Other" }] := by
  refine ⟨by decide, by decide, by decide, by rfl⟩

set_option maxRecDepth 100000 in
/-- Claim C3 (code bug): after deduplication the sort key
`x.get('published', '')` is `None` (not the `''` sentinel) for the undated
article, because the `'published'` key is always present; `list.sort` then
raises `TypeError`, so undated entries do not "sort last" — the operation
blows up instead. -/
theorem claim3_undated_entry_breaks_sort :
    searchFeedsArticles id
      [{ title := "Alpha", url := "https://a.com", published := some "2024-05-01T00:00:00" },
       { title := "Beta", url := "https://b.com", published := none }] 10 =
      .error "TypeError: '<' not supported between instances of 'NoneType' and 'str'" := by
  rfl

set_option maxRecDepth 100000 in
/-- Claim C4 (code bug): `search_feeds` does not always return a well-formed
result object: with one dated and one undated surviving article the final
sort raises `TypeError` outside every `try`/`except`, and the exception
propagates to the caller. -/
theorem claim4_search_feeds_exception_escapes :
    search_feeds_post id
      [{ title := "Gamma", url := "https://g.com", published := some "2024-05-02T00:00:00" },
       { title := "Delta", url := "https://d.com", published := none }] 10 =
      .error "TypeError: '<' not supported between instances of 'NoneType' and 'str'" := by
  rfl

/-- Claim C2 (code bug): with a successful HTTP fetch, no trafilatura
extraction and a readability fallback that finds no text at all,
`fetch_article` returns `success = True` with empty `text` — the readability
branch assigns `article_data` unconditionally, so the distinct
"no content extracted" failure branch is unreachable. -/
theorem claim2_empty_fallback_marked_successful :
    (fetch_article id "https://example.com/empty"
      { http := .ok "<html><body></body></html>", trafilatura := none,
        readability := .ok { docTitle := "Empty Page", text := "" } }).success = true ∧
    (fetch_article id "https://example.com/empty"
      { http := .ok "<html><body></body></html>", trafilatura := none,
        readability := .ok { docTitle := "Empty Page", text := "" } }).text = "" ∧
    (fetch_article id "https://example.com/empty"
      { http := .ok "<html><body></body></html>", trafilatura := none,
        readability := .ok { docTitle := "Empty Page", text := "" } }).error = none ∧
    (fetch_article id "https://example.com/empty"
      { http := .ok "<html><body></body></html>", trafilatura := none,
        readability := .ok { docTitle := "Empty Page", text := "" } }).extraction_method =
      "readability" := by
  refine ⟨by rfl, by rfl, by rfl, by rfl⟩

/-- Claim C9, amended: the date-range line shows the first and the last of
the unique formatted date strings *in the set's (unspecified) iteration
order*; each endpoint is one of the formatted publish dates collected from
the collection, but it is not in general the earliest or the latest.
`order` ranges over every duplicate-free enumeration of the distinct
collected dates, i.e. over every possible CPython set iteration order. -/
theorem claim9_date_range_endpoints (fmt : String → Option String)
    (collection : List Article) (order : List String)
    (hperm : order.Perm (collectDates fmt collection).dedup) (hne : order ≠ []) :
    order.head hne ∈ collectDates fmt collection ∧
    order.getLast hne ∈ collectDates fmt collection ∧
    dateRangeLine order =
      some ("Coverage from: " ++ order.head hne ++
        (if order.tail ≠ [] then " to " ++ order.getLast hne else "")) := by
  have hsub : ∀ x ∈ order, x ∈ collectDates fmt collection := fun x hx =>
    List.dedup_subset _ (hperm.subset hx)
  refine ⟨hsub _ (List.head_mem hne), hsub _ (List.getLast_mem hne), ?_⟩
  obtain ⟨d, rest, rfl⟩ : ∃ d rest, order = d :: rest := by
    cases order with
    | nil => exact absurd rfl hne
    | cons d rest => exact ⟨d, rest, rfl⟩
  cases rest with
  | nil => simp [dateRangeLine]
  | cons e rest2 =>
    simp only [dateRangeLine, List.head_cons, List.tail_cons]
    rw [List.getLast?_eq_getLast (d :: e :: rest2) (by simp)]
    simp

/-- Witness for C9: two distinct collected dates enumerated in insertion
order. -/
theorem claim9_witness :
    (["April 05, 2024", "April 20, 2024"] : List String).Perm
      ((collectDates
        (fun s => if s = "2024-04-05" then some "April 05, 2024"
                  else if s = "2024-04-20" then some "April 20, 2024" else none)
        [{ published := some "2024-04-05" }, { published := some "2024-04-20" }]).dedup) ∧
    dateRangeLine ["April 05, 2024", "April 20, 2024"] =
      some "Coverage from: April 05, 2024 to April 20, 2024" := by
  refine ⟨by decide, ?_⟩
  have h := (claim9_date_range_endpoints
    (fun s => if s = "2024-04-05" then some "April 05, 2024"
              else if s = "2024-04-20" then some "April 20, 2024" else none)
    [{ published := some "2024-04-05" }, { published := some "2024-04-20" }]
    ["April 05, 2024", "April 20, 2024"] (by decide) (by decide)).2.2
  rw [h]
  rfl

/-- Claim C9, counterexample: with two articles whose formatted dates are
`March 15, 2024` (first) and `March 01, 2024` (second), the enumeration of
the distinct dates in first-occurrence order — one legitimate set iteration
order — makes the line read "Coverage from: March 15, 2024 to March 01,
2024", although `March 01, 2024` precedes `March 15, 2024` both
chronologically and in the lexicographic string order (same month, day 01
vs 15).  The displayed endpoints are therefore not the earliest and the
latest of the unique date strings. -/
theorem claim9_date_range_not_earliest_latest :
    dateRangeLine ((collectDates
        (fun s => if s = "2024-03-15" then some "March 15, 2024"
                  else if s = "2024-03-01" then some "March 01, 2024" else none)
        [{ published := some "2024-03-15" }, { published := some "2024-03-01" }]).dedup) =
      some "Coverage from: March 15, 2024 to March 01, 2024" ∧
    "March 01, 2024".toList < "March 15, 2024".toList := by
  refine ⟨by decide, by decide⟩

/-! ### Lemmas for the refinement stage -/

theorem getD_mem_of_lt (l : List α) (i : Nat) (d : α) (h : i < l.length) :
    l.getD i d ∈ l := by
  rw [List.getD_eq_getElem?_getD, List.getElem?_eq_getElem h, Option.getD_some]
  exact List.getElem_mem h

theorem llm_rank_none_of_parse_none (articles : List Article) (r : String)
    (hp : parse_ranking_response r = none) :
    llm_rank_articles articles (some r) = none := by
  simp [llm_rank_articles, hp]

theorem llm_rank_none_of_parse_empty (articles : List Article) (r : String)
    (hp : parse_ranking_response r = some []) :
    llm_rank_articles articles (some r) = none := by
  simp [llm_rank_articles, hp]

theorem llm_rank_eq_of_parse_some (articles : List Article) (r : String)
    (indices : List Nat) (hp : parse_ranking_response r = some indices)
    (hind : indices ≠ []) :
    llm_rank_articles articles (some r) =
      some ((indices.filter (· < articles.length)).map
        (fun i => articles.getD i default)) := by
  simp [llm_rank_articles, hp, hind]

theorem rank_select_of_llm_none (scored : List Article) (resp : Option String)
    (h : llm_rank_articles (scored.take 15) resp = none) :
    rank_articles_select scored resp = (scored.take 15).take 5 := by
  unfold rank_articles_select
  dsimp only
  rw [h]

theorem rank_select_of_llm_some (scored : List Article) (resp : Option String)
    (l : List Article) (h : llm_rank_articles (scored.take 15) resp = some l) :
    rank_articles_select scored resp =
      if l = [] then (scored.take 15).take 5 else l.take 5 := by
  unfold rank_articles_select
  dsimp only
  rw [h]

/-- Claim C7: in the refinement stage of `rank_articles`, (a) an unparseable
ranker response falls back silently to the heuristic order; (b) if the parsed
indices leave no usable (in-range) index, the result is the heuristic top 5;
(c) if at least one usable index remains, the result is the top 5 of the
refined order — built only from in-range indices, out-of-range ones being
dropped — and every returned article is one of the 15 heuristic candidates. -/
theorem claim7_refinement_fallback_and_bounds (scored : List Article) (r : String) :
    (parse_ranking_response r = none →
      rank_articles_select scored (some r) = (scored.take 15).take 5) ∧
    (∀ indices, parse_ranking_response r = some indices →
      (indices.filter (· < (scored.take 15).length) = [] →
        rank_articles_select scored (some r) = (scored.take 15).take 5) ∧
      (indices.filter (· < (scored.take 15).length) ≠ [] →
        rank_articles_select scored (some r) =
          ((indices.filter (· < (scored.take 15).length)).map
            (fun i => (scored.take 15).getD i default)).take 5 ∧
        ∀ a ∈ rank_articles_select scored (some r), a ∈ scored.take 15)) := by
  constructor
  · intro hp
    exact rank_select_of_llm_none scored (some r) (llm_rank_none_of_parse_none _ r hp)
  · intro indices hp
    constructor
    · intro hemp
      by_cases hind : indices = []
      · subst hind
        exact rank_select_of_llm_none scored (some r) (llm_rank_none_of_parse_empty _ r hp)
      · rw [rank_select_of_llm_some scored (some r) _
          (llm_rank_eq_of_parse_some _ r indices hp hind), hemp]
        simp
    · intro hne
      have hind : indices ≠ [] := by
        intro h
        exact hne (by simp [h])
      have hmapne : (indices.filter (· < (scored.take 15).length)).map
          (fun i => (scored.take 15).getD i default) ≠ [] := by
        intro h
        exact hne (List.map_eq_nil_iff.mp h)
      have hsel := rank_select_of_llm_some scored (some r) _
        (llm_rank_eq_of_parse_some _ r indices hp hind)
      rw [if_neg hmapne] at hsel
      refine ⟨hsel, ?_⟩
      intro a ha
      rw [hsel] at ha
      have ha2 := List.take_subset 5 _ ha
      obtain ⟨i, hi, rfl⟩ := List.mem_map.mp ha2
      have hilt : i < (scored.take 15).length := by
        have := (List.mem_filter.mp hi).2
        exact of_decide_eq_true this
      exact getD_mem_of_lt _ i default hilt

/-- Witness for C7: a parsed response `[1, 0, 9]` against two candidates —
index 9 is dropped, indices 1 and 0 reorder the articles. -/
theorem claim7_witness :
    parse_ranking_response "[1, 0, 9]" = some [1, 0, 9] ∧
    rank_articles_select [{ title := "A1" }, { title := "A2" }] (some "[1, 0, 9]") =
      [{ title := "A2" }, { title := "A1" }] := by
  refine ⟨by rfl, ?_⟩
  have h := ((claim7_refinement_fallback_and_bounds
    [{ title := "A1" }, { title := "A2" }] "[1, 0, 9]").2 [1, 0, 9] (by rfl)).2
    (by decide)
  rw [h.1]
  rfl

end NewsFetcher
